import Mathlib

/-!
Verification of the mangadex client library (Python) against its
natural-language specification, via a shallow embedding in Lean 4.

The embedding translates, from the source:
* `src/mangadex/_handler.py`  — `RequestHandler.get` and the private
  rate limiter `__basic_rate_limiter`;
* `src/mangadex/_errors.py`   — `ResultNotOkayError`;
* `src/mangadex/manga.py`     — `MangaSearch.__manga_from_json`
  (title-resolution loop) and `MangaSearch.search_by_id`;
* `src/mangadex/chapters.py`  — `MangaChapters.__chapters_json`
  (pagination loop), `MangaChapters.all`, `MangaChapters._download`
  (page download pipeline), and
  `MangaChapters.download_chapter_by_number`.

Network effects are abstracted by passing the remote responses as
explicit arguments (a function from attempt index, or offset, to the
response body); filesystem effects are recorded as an explicit event
trace; calls to `time.sleep(1)` are counted as seconds of blocking.
Python dicts appearing in JSON bodies are modelled as association
lists, membership tests (`k in d`) as `List.lookup` success, and
Python exceptions as `Except`.
-/

/-! ## Errors (`_errors.py`) -/

/-- One entry of the `errors` array of an error response body; the
fields `ResultNotOkayError.__str__` reads from `json['errors'][0]`. -/
structure ErrorJson where
  status : String
  title : String
  detail : String
deriving Repr, DecidableEq

/-- The exceptions of the library.  `resultNotOkay` carries the
`errors` array of the response json it was constructed from
(`ResultNotOkayError.__init__` stores the whole json; the `errors`
field is the part its `__str__` reads). -/
inductive MdError where
  | resultNotOkay (errors : List ErrorJson)
deriving Repr, DecidableEq

/-- `ResultNotOkayError.__str__`: renders the first reported error's
status, title and detail; `none` models the `IndexError` Python would
raise on an empty `errors` array. -/
def ResultNotOkayError.message (errors : List ErrorJson) : Option String :=
  errors.head?.map
    (fun e => "Result not okay: <status " ++ e.status ++ "> " ++ e.title ++ ": " ++ e.detail)

/-- The guard `"result" in json and json["result"] == "error"` used by
every operation, with the optional `result` field of the body as an
`Option String`. -/
def result_is_error (result : Option String) : Bool :=
  result == some "error"

/-! ## Transport (`_handler.py`) -/

/-- An HTTP response as far as the client inspects it: a status code
and a body. -/
structure HttpResponse where
  status : Nat
  content : String
deriving Repr, DecidableEq

/-- The cooldown table `available_cooldowns` of
`RequestHandler.__basic_rate_limiter`. -/
def available_cooldowns : List (String × Nat) :=
  [("at-home", 60), ("__default", 60)]

/-- The cooldown chosen by `RequestHandler.__basic_rate_limiter`:
split the endpoint on `/`, drop empty segments, take the first segment
if any (else `None`), and look the segment up in the table, falling
back to the `"__default"` entry when the segment is absent. -/
def which_cooldown (endpoint : String) : Nat :=
  let endpoint_split := (endpoint.split (· = '/')).filter (· ≠ "")
  let key := match endpoint_split.head? with
    | some seg => if (available_cooldowns.lookup seg).isSome then seg else "__default"
    | none => "__default"
  (available_cooldowns.lookup key).getD 0

/-- The `while which_cooldown > -1: sleep(1); which_cooldown -= 1`
loop of `RequestHandler.__basic_rate_limiter`, counting the seconds
slept.  The counter is an `Int` because the loop runs until the
counter reaches `-1`. -/
def sleep_loop (c : Int) : Nat :=
  if c > -1 then 1 + sleep_loop (c - 1) else 0
termination_by (c + 1).toNat
decreasing_by
  simp_wf
  omega

/-- Total seconds `RequestHandler.__basic_rate_limiter(endpoint)`
blocks the calling thread. -/
def basic_rate_limiter_sleep (endpoint : String) : Nat :=
  sleep_loop (which_cooldown endpoint)

/-- The observable outcome of one `RequestHandler.get` call: the
response handed back to the caller, the number of HTTP requests
issued, and the seconds of blocking inside the rate limiter. -/
structure GetOutcome where
  resp : HttpResponse
  requests : Nat
  sleepSeconds : Nat
deriving Repr, DecidableEq

/-- `RequestHandler.get`: issue the request; if the status is 429,
`RateLimitedError` is raised and caught in the same method, the rate
limiter runs, and the identical request is issued once more, its
response returned whatever its status.  Any non-429 first response is
returned directly.  `responses n` is the response the server would
give to the n-th (0-based) issue of this request. -/
def RequestHandler.get (responses : Nat → HttpResponse) (endpoint : String) : GetOutcome :=
  let resp := responses 0
  if resp.status = 429 then
    ⟨responses 1, 2, basic_rate_limiter_sleep endpoint⟩
  else
    ⟨resp, 1, 0⟩

/-- A concrete response sequence: first attempt rate-limited, second
attempt succeeds. -/
def ex_responses_429 : Nat → HttpResponse :=
  fun n => if n = 0 then ⟨429, "limited"⟩ else ⟨200, "ok"⟩

/-- A concrete response sequence: every attempt rate-limited. -/
def ex_responses_429_429 : Nat → HttpResponse :=
  fun _ => ⟨429, "limited"⟩

/-- A concrete response sequence: first attempt succeeds. -/
def ex_responses_200 : Nat → HttpResponse :=
  fun n => if n = 0 then ⟨200, "ok"⟩ else ⟨500, "later"⟩

/-! ## Catalog search (`manga.py`) -/

/-- The `attributes` object of one manga in a catalog response.
Localised-string dicts (`title`, `description`, the elements of
`altTitles`) are association lists from language code to text. -/
structure MangaAttributes where
  title : List (String × String)
  altTitles : List (List (String × String))
  description : List (String × String)
  status : String
  year : Int
  contentRating : String
  tags : List String
  originalLanguage : String
  availableTranslatedLanguages : List String
  links : List (String × String)
deriving Repr, DecidableEq

/-- One element of the `data` field of a catalog response. -/
structure MangaDataJson where
  type : String
  id : String
  attributes : MangaAttributes
deriving Repr, DecidableEq

/-- The `Manga` dataclass of `manga.py`. -/
structure Manga where
  title : Option String
  description : Option String
  type : String
  id : String
  status : String
  year : Int
  rating : String
  tags : List String
  original_language : String
  available_languages : List String
  links : List (String × String)
deriving Repr, DecidableEq

/-- The `for title_dict in json["attributes"]["altTitles"]` loop of
`MangaSearch.__manga_from_json`: overwrite `title` with the first
alternate-title dict containing the preferred language, then break;
keep the incoming `title` when no dict matches. -/
def resolve_title_loop (lang : String) (title : Option String) :
    List (List (String × String)) → Option String
  | [] => title
  | title_dict :: rest =>
    match title_dict.lookup lang with
    | some t => some t
    | none => resolve_title_loop lang title rest

/-- `MangaSearch.__manga_from_json`: the fallback title is
`json["attributes"]["title"]["en"]` when present (else `None`),
overwritten by the alternate-title scan; the remaining fields are
copied (description looked up in the preferred language). -/
def manga_from_json (json : MangaDataJson) (lang : String) : Manga :=
  let title := json.attributes.title.lookup "en"
  let title := resolve_title_loop lang title json.attributes.altTitles
  ⟨title, json.attributes.description.lookup lang, json.type, json.id,
   json.attributes.status, json.attributes.year, json.attributes.contentRating,
   json.attributes.tags, json.attributes.originalLanguage,
   json.attributes.availableTranslatedLanguages, json.attributes.links⟩

/-- The body of a `manga/{id}` response as `MangaSearch.search_by_id`
reads it. -/
structure MangaJson where
  result : Option String
  errors : List ErrorJson
  data : MangaDataJson
deriving Repr, DecidableEq

/-- `MangaSearch.search_by_id`: raise `ResultNotOkayError` on an
error body, otherwise convert the `data` object. -/
def MangaSearch.search_by_id (resp : MangaJson) (preferred_lang : String) :
    Except MdError Manga :=
  if result_is_error resp.result then Except.error (MdError.resultNotOkay resp.errors)
  else Except.ok (manga_from_json resp.data preferred_lang)

/-- A concrete manga `data` object: an English title and a French
alternate title, both present. -/
def ex_manga_json : MangaDataJson :=
  ⟨"manga", "abc-123",
   ⟨[("en", "English Title")], [[("ja", "JT")], [("fr", "Titre")]], [],
    "ongoing", 1990, "safe", [], "ja", ["en", "fr"], []⟩⟩

/-- A concrete manga `data` object: no English title and no alternate
title in the preferred language. -/
def ex_manga_json_nomatch : MangaDataJson :=
  ⟨"manga", "def-456",
   ⟨[("ja", "X")], [[("de", "Y")]], [], "completed", 2000, "safe", [], "ja", [], []⟩⟩

/-! ## Chapter directory (`chapters.py`) -/

/-- The `attributes` object of one chapter feed item. -/
structure ChapterAttributes where
  title : Option String
  volume : Option String
  chapter : String
  pages : Nat
deriving Repr, DecidableEq

/-- One element of the `data` array of a feed page. -/
structure ChapterJson where
  id : String
  attributes : ChapterAttributes
deriving Repr, DecidableEq

/-- The body of one page of the `manga/{id}/feed` endpoint. -/
structure FeedJson where
  result : Option String
  errors : List ErrorJson
  data : List ChapterJson
deriving Repr, DecidableEq

/-- The `Chapter` dataclass of `chapters.py`. -/
structure Chapter where
  id : String
  title : Option String
  volume : Option String
  number : String
  pages : Nat
deriving Repr, DecidableEq

/-- Conversion of one feed item into a `Chapter`, as in the loop body
of `MangaChapters.all`. -/
def chapter_of_json (c : ChapterJson) : Chapter :=
  ⟨c.id, c.attributes.title, c.attributes.volume, c.attributes.chapter, c.attributes.pages⟩

/-- The `while chapters_len == 500` loop of
`MangaChapters.__chapters_json`.  `server offset` is the feed page the
API returns at that offset with `limit=500`.  Each iteration requests
offset `mult * 500` (the source writes `mult * 500 if mult > 0 else
0`, which is the same value), raises `ResultNotOkayError` on an error
body, appends the page to the accumulated list, and continues iff the
page carries exactly 500 items.  The pages are paired with the offset
they were requested at.  `fuel` bounds the iterations, since the
Python loop terminates only against a server that eventually answers
a short page; `none` models non-termination. -/
def chapters_json_loop (server : Nat → FeedJson) :
    Nat → Nat → Option (Except MdError (List (Nat × FeedJson)))
  | 0, _ => none
  | fuel + 1, mult =>
    let offset_calc := mult * 500
    let json := server offset_calc
    if result_is_error json.result then
      some (Except.error (MdError.resultNotOkay json.errors))
    else if json.data.length = 500 then
      (chapters_json_loop server fuel (mult + 1)).map
        (fun r => r.map (fun pages => (offset_calc, json) :: pages))
    else some (Except.ok [(offset_calc, json)])

/-- `MangaChapters.__chapters_json`: run the pagination loop from
`mult = 0`. -/
def MangaChapters.chapters_json (server : Nat → FeedJson) (fuel : Nat) :
    Option (Except MdError (List (Nat × FeedJson))) :=
  chapters_json_loop server fuel 0

/-- `MangaChapters.all`: unpack every page's `data` array into one
flat list, convert each item to a `Chapter`, and return the pair
`(len(chapters), chapters)`. -/
def MangaChapters.all (server : Nat → FeedJson) (fuel : Nat) :
    Option (Except MdError (Nat × List Chapter)) :=
  (MangaChapters.chapters_json server fuel).map (Except.map (fun pages =>
    let chapters := (pages.flatMap (fun pr => pr.2.data)).map chapter_of_json
    (chapters.length, chapters)))

/-- A feed server faithfully serving a fixed feed: the page at an
offset holds items `feed[offset : offset + 500]`, with no error
bodies. -/
def honest_server (feed : List ChapterJson) (offset : Nat) : FeedJson :=
  ⟨none, [], (feed.drop offset).take 500⟩

/-- A concrete feed item. -/
def ex_feed_item : ChapterJson := ⟨"ch-1", ⟨some "T", none, "1", 3⟩⟩

/-! ## Download pipeline (`chapters.py`) -/

/-- `[seg for seg in page_url.split(".") if seg != ""][-1]` of
`MangaChapters._download`: the last non-empty dot-separated segment;
`none` models the `IndexError` Python raises when there is none.
`split(".")` is modelled on the string's character sequence
(`"a..b".split(".") == ["a", "", "b"]`, as in Python). -/
def ext_type (page_url : String) : Option String :=
  (((page_url.data.splitOn '.').map String.mk).filter (· ≠ "")).getLast?

/-- Filesystem effects of the download pipeline, in program order:
`os.makedirs`, the `open(..., "wb")` that creates or truncates the
target file, and the write of the fetched bytes. -/
inductive FsEvent where
  | mkdirTree (dir : String)
  | createFile (file : String)
  | writeFile (file : String) (content : String)
deriving Repr, DecidableEq

/-- The `chapter` object of an `at-home/server/{id}` response body. -/
structure AtHomeChapter where
  hash : String
  data : List String
  dataSaver : List String
deriving Repr, DecidableEq

/-- The body of an `at-home/server/{id}` response. -/
structure AtHomeJson where
  result : Option String
  errors : List ErrorJson
  baseUrl : String
  chapter : AtHomeChapter
deriving Repr, DecidableEq

/-- The `for index, page_url in enumerate(pages)` loop of
`MangaChapters._download`.  `fetch` maps a full image URL to the bytes
the CDN answers with; `none` means the request raises, which aborts
the loop.  The `open(..., "wb")` creating or truncating the target
file is evaluated before the fetch, so it is recorded even when the
fetch fails; the bytes are written only after a successful fetch.
Returns the filesystem events, the URLs requested in order (each page
is fetched exactly once), and whether the loop completed. -/
def download_pages (fetch : String → Option String)
    (baseUrl quality hash path : String) :
    Nat → List String → List FsEvent × List String × Bool
  | _, [] => ([], [], true)
  | index, page_url :: rest =>
    match ext_type page_url with
    | none => ([], [], false)
    | some ext =>
      let file := path ++ "/" ++ toString (index + 1) ++ "." ++ ext
      let page_dest := quality ++ "/" ++ hash ++ "/" ++ page_url
      let url := baseUrl ++ "/" ++ page_dest
      match fetch url with
      | none => ([FsEvent.createFile file], [url], false)
      | some bytes =>
        let r := download_pages fetch baseUrl quality hash path (index + 1) rest
        (FsEvent.createFile file :: FsEvent.writeFile file bytes :: r.1,
         url :: r.2.1, r.2.2)

/-- `MangaChapters._download`: build the chapter directory name
(`{number}: {title}` when a title exists, else the number) under the
given base path (or `./{manga_title}` when the path argument is falsy),
raise on an error body from the `at-home/server/{id}` resolve step,
create the directory tree when `os.path.exists` is false, choose the
page-path list and quality segment by the `datasaver` flag, and run
the page loop. -/
def MangaChapters._download (fetch : String → Option String) (manga_title : String)
    (chapter : Chapter) (datasaver : Bool) (path : Option String)
    (at_home : AtHomeJson) (path_exists : Bool) :
    Except MdError (List FsEvent × List String × Bool) :=
  let chapter_path := match chapter.title with
    | some t => chapter.number ++ ": " ++ t
    | none => chapter.number
  let full_path := match path with
    | some p =>
      if p = "" then "./" ++ manga_title ++ "/" ++ chapter_path
      else p ++ "/" ++ chapter_path
    | none => "./" ++ manga_title ++ "/" ++ chapter_path
  if result_is_error at_home.result then
    Except.error (MdError.resultNotOkay at_home.errors)
  else
    let mkdir_events := if path_exists then [] else [FsEvent.mkdirTree full_path]
    let pages := if datasaver then at_home.chapter.dataSaver else at_home.chapter.data
    let quality := if datasaver then "data-saver" else "data"
    let r := download_pages fetch at_home.baseUrl quality at_home.chapter.hash full_path 0 pages
    Except.ok (mkdir_events ++ r.1, r.2.1, r.2.2)

/-- `MangaChapters.download_chapter_by_number`: scan the chapter list
in feed order; at the first chapter whose `number` is string-equal to
the requested number, download it and return; after a full scan with
no match, report not-found.  Returns the list of chapters downloaded
and whether a match was found (`false` = the not-found message). -/
def download_chapter_by_number : List Chapter → String → List Chapter × Bool
  | [], _ => ([], false)
  | c :: rest, number =>
    if c.number = number then ([c], true)
    else download_chapter_by_number rest number

/-- A concrete `at-home/server/{id}` response body. -/
def ex_at_home : AtHomeJson :=
  ⟨none, [], "https://cdn.example",
   ⟨"hash123", ["p1.png", "p2.jpg"], ["s1.png", "s2.jpg"]⟩⟩

/-- A concrete chapter record. -/
def ex_chapter : Chapter := ⟨"ch-id-1", some "The Title", some "1", "10", 2⟩

/-- Specification-side description of the target file of the 0-based
page `index`: `{path}/{index + 1}.{ext}`. -/
def page_file (path : String) (index : Nat) (ext : String) : String :=
  path ++ "/" ++ toString (index + 1) ++ "." ++ ext

/-- Specification-side description of the full image URL:
`{quality}/{hash}/{page}` resolved against the session base URL. -/
def page_full_url (baseUrl quality hash page_url : String) : String :=
  baseUrl ++ "/" ++ (quality ++ "/" ++ hash ++ "/" ++ page_url)

/-- Specification-side description of the chapter directory name:
`{number}: {title}` when a title exists, else just the number. -/
def chapter_dir_name (chapter : Chapter) : String :=
  match chapter.title with
  | some t => chapter.number ++ ": " ++ t
  | none => chapter.number

/-- The page-path list selected by the datasaver flag. -/
def chosen_pages (at_home : AtHomeJson) (datasaver : Bool) : List String :=
  if datasaver then at_home.chapter.dataSaver else at_home.chapter.data

/-- The URL quality segment selected by the datasaver flag. -/
def chosen_quality (datasaver : Bool) : String :=
  if datasaver then "data-saver" else "data"

/-- A concrete reported error. -/
def ex_error : ErrorJson := ⟨"404", "not_found", "Manga could not be found"⟩

/-- A concrete `manga/{id}` error response. -/
def ex_manga_json_error : MangaJson := ⟨some "error", [ex_error], ex_manga_json⟩

/-- A concrete successful `manga/{id}` response. -/
def ex_manga_json_ok : MangaJson := ⟨none, [], ex_manga_json⟩

/-- A feed server answering every offset with an error body. -/
def ex_error_server : Nat → FeedJson := fun _ => ⟨some "error", [ex_error], []⟩

/-- A concrete `at-home/server/{id}` error response. -/
def ex_at_home_error : AtHomeJson := ⟨some "error", [ex_error], "", ⟨"", [], []⟩⟩

/-- A concrete chapter with a given id and chapter-number label and no
title. -/
def ex_ch (idstr numstr : String) : Chapter := ⟨idstr, none, none, numstr, 1⟩

/-- The extension function for the pages of `ex_at_home`. -/
def ex_ext : String → String := fun s => if s = "p1.png" ∨ s = "s1.png" then "png" else "jpg"

/-- A CDN fetch that succeeds everywhere except on the second page of
`ex_at_home`. -/
def ex_fetch_fail2 : String → Option String :=
  fun u => if u = "https://cdn.example/data/hash123/p2.jpg" then none
           else some ("IMG:" ++ u)

theorem sleep_loop_nonneg (n : Nat) : sleep_loop (n : Int) = n + 1 := by
  induction n with
  | zero =>
    rw [sleep_loop, if_pos (by omega : ((0 : Nat) : Int) > -1), sleep_loop]
    norm_num
  | succ k ih =>
    rw [sleep_loop, if_pos (by push_cast; omega : (((k + 1 : Nat)) : Int) > -1)]
    have hc : (((k + 1 : Nat)) : Int) - 1 = ((k : Nat) : Int) := by push_cast; ring
    rw [hc, ih]
    omega

theorem lookup_cooldowns (seg : String) :
    available_cooldowns.lookup seg = some 60 ∨ available_cooldowns.lookup seg = none := by
  unfold available_cooldowns
  by_cases h1 : seg = "at-home"
  · simp [List.lookup, h1]
  · by_cases h2 : seg = "__default"
    · simp [List.lookup, h1, h2, beq_iff_eq]
    · have b1 : (seg == "at-home") = false := beq_eq_false_iff_ne.mpr h1
      have b2 : (seg == "__default") = false := beq_eq_false_iff_ne.mpr h2
      simp [List.lookup, b1, b2]

theorem which_cooldown_eq_60 (endpoint : String) : which_cooldown endpoint = 60 := by
  simp only [which_cooldown]
  generalize ((endpoint.split (· = '/')).filter (· ≠ "")).head? = o
  cases o with
  | none => rfl
  | some seg =>
    rcases lookup_cooldowns seg with hs | hs
    · simp only [hs, Option.isSome_some, if_true, Option.getD_some]
    · simp only [hs, Option.isSome_none, Bool.false_eq_true, if_false]
      rfl

theorem basic_rate_limiter_sleep_eq (endpoint : String) :
    basic_rate_limiter_sleep endpoint = 61 := by
  unfold basic_rate_limiter_sleep
  rw [which_cooldown_eq_60]
  exact sleep_loop_nonneg 60

/-- Claim C2: for every call to `RequestHandler.get`, a 429 first
response is never propagated as an error: one rate-limit recovery
cycle runs, the identical request is issued exactly once more (2
requests in total), and the second response is returned whatever its
status; a non-429 first response is returned as-is after exactly one
request and no blocking.  (The totality of `RequestHandler.get`
models that no exception escapes the method.) -/
theorem C2_transport_single_retry (responses : Nat → HttpResponse) (endpoint : String) :
    ((responses 0).status = 429 →
      RequestHandler.get responses endpoint =
        ⟨responses 1, 2, basic_rate_limiter_sleep endpoint⟩)
    ∧ ((responses 0).status ≠ 429 →
      RequestHandler.get responses endpoint = ⟨responses 0, 1, 0⟩) := by
  constructor <;> intro h <;> simp [RequestHandler.get, h]

/-- Witness for C2 at concrete inputs: a 429-then-200 exchange returns
the 200 response after 2 requests and 61 seconds of blocking; a
429-then-429 exchange still returns the second response; a 200 first
response is returned directly. -/
theorem C2_transport_single_retry_witness :
    RequestHandler.get ex_responses_429 "manga/abc" = ⟨⟨200, "ok"⟩, 2, 61⟩
    ∧ RequestHandler.get ex_responses_429_429 "manga/abc" = ⟨⟨429, "limited"⟩, 2, 61⟩
    ∧ RequestHandler.get ex_responses_200 "manga/abc" = ⟨⟨200, "ok"⟩, 1, 0⟩ := by
  refine ⟨?_, ?_, ?_⟩
  · rw [(C2_transport_single_retry ex_responses_429 "manga/abc").1 rfl,
      basic_rate_limiter_sleep_eq]
    rfl
  · rw [(C2_transport_single_retry ex_responses_429_429 "manga/abc").1 rfl,
      basic_rate_limiter_sleep_eq]
    rfl
  · exact (C2_transport_single_retry ex_responses_200 "manga/abc").2 (by decide)

/-- Counterexample to claim C3 as stated: for the endpoint
`manga/abc123` the table cooldown is 60, yet the recovery cycle blocks
for 61 seconds, not 60 — the loop `while which_cooldown > -1` sleeps
once for each counter value from 60 down to 0 inclusive. -/
theorem C3_rate_limiter_counterexample :
    basic_rate_limiter_sleep "manga/abc123" = 61
    ∧ basic_rate_limiter_sleep "manga/abc123" ≠ 60 := by
  constructor
  · exact basic_rate_limiter_sleep_eq _
  · rw [basic_rate_limiter_sleep_eq]
    decide

/-- Claim C3 (amended): the recovery cycle looks a cooldown up in the
static table keyed by the endpoint's first path segment (the default
entry covering unmapped segments, every entry being 60 seconds) and
blocks the calling thread for cooldown + 1 = 61 seconds, decrementing
the counter once per second from the cooldown down to 0 inclusive;
in the 429-then-retry scenario on `manga/{id}` exactly 61 seconds of
blocking occur between the two attempts. -/
theorem C3_rate_limiter_cooldown (endpoint : String) (responses : Nat → HttpResponse) :
    basic_rate_limiter_sleep endpoint = which_cooldown endpoint + 1
    ∧ which_cooldown endpoint = 60
    ∧ ((responses 0).status = 429 →
        (RequestHandler.get responses "manga/some-id").sleepSeconds = 61) := by
  refine ⟨?_, which_cooldown_eq_60 endpoint, ?_⟩
  · rw [basic_rate_limiter_sleep_eq, which_cooldown_eq_60]
  · intro h
    simp [RequestHandler.get, h, basic_rate_limiter_sleep_eq]

/-- Witness for C3 (amended) at concrete inputs. -/
theorem C3_rate_limiter_cooldown_witness :
    basic_rate_limiter_sleep "at-home/server/xyz" = 61
    ∧ (RequestHandler.get ex_responses_429 "manga/some-id").sleepSeconds = 61 := by
  constructor
  · rw [(C3_rate_limiter_cooldown "at-home/server/xyz" ex_responses_429).1,
      (C3_rate_limiter_cooldown "at-home/server/xyz" ex_responses_429).2.1]
  · exact (C3_rate_limiter_cooldown "at-home/server/xyz" ex_responses_429).2.2 rfl

theorem resolve_title_loop_no_match (lang : String) (title : Option String)
    (alts : List (List (String × String)))
    (h : ∀ d ∈ alts, d.lookup lang = none) :
    resolve_title_loop lang title alts = title := by
  induction alts with
  | nil => rfl
  | cons d rest ih =>
    rw [resolve_title_loop, h d (List.mem_cons_self d rest)]
    exact ih (fun d' hd' => h d' (List.mem_cons_of_mem d hd'))

theorem resolve_title_loop_first_match (lang : String) (title : Option String)
    (pre : List (List (String × String))) (d : List (String × String))
    (post : List (List (String × String))) (t : String)
    (hpre : ∀ d' ∈ pre, d'.lookup lang = none) (hd : d.lookup lang = some t) :
    resolve_title_loop lang title (pre ++ d :: post) = some t := by
  induction pre with
  | nil => rw [List.nil_append, resolve_title_loop, hd]
  | cons p rest ih =>
    rw [List.cons_append, resolve_title_loop, hpre p (List.mem_cons_self p rest)]
    exact ih (fun d' hd' => hpre d' (List.mem_cons_of_mem p hd'))

/-- Claim C4: the resolved title of a catalog entity starts from the
English entry of the `title` dict when present (else null) and is
overwritten by the first alternate-title dict, in list order, that
contains the preferred language; when a preferred-language alternate
exists it wins over the English default, and when none matches the
English default (or null, absent an English title) stands. -/
theorem C4_title_resolution (json : MangaDataJson) (lang : String) :
    ((∀ d ∈ json.attributes.altTitles, d.lookup lang = none) →
      (manga_from_json json lang).title = json.attributes.title.lookup "en")
    ∧ (∀ pre d post t, json.attributes.altTitles = pre ++ d :: post →
        (∀ d' ∈ pre, d'.lookup lang = none) → d.lookup lang = some t →
        (manga_from_json json lang).title = some t) := by
  constructor
  · intro h
    show resolve_title_loop lang (json.attributes.title.lookup "en")
        json.attributes.altTitles = json.attributes.title.lookup "en"
    exact resolve_title_loop_no_match lang _ _ h
  · intro pre d post t hsplit hpre hd
    show resolve_title_loop lang (json.attributes.title.lookup "en")
        json.attributes.altTitles = some t
    rw [hsplit]
    exact resolve_title_loop_first_match lang _ pre d post t hpre hd

/-- Witness for C4 at concrete inputs: with both an English title and
a French alternate present, preferred language `fr` resolves to the
alternate; with no English title and no matching alternate, the
resolved title is null. -/
theorem C4_title_resolution_witness :
    (manga_from_json ex_manga_json "fr").title = some "Titre"
    ∧ (manga_from_json ex_manga_json_nomatch "fr").title = none := by
  constructor
  · exact (C4_title_resolution ex_manga_json "fr").2
      [[("ja", "JT")]] [("fr", "Titre")] [] "Titre" rfl (by decide) (by decide)
  · exact (C4_title_resolution ex_manga_json_nomatch "fr").1 (by decide)

theorem chapters_json_loop_succ (server : Nat → FeedJson) (fuel mult : Nat) :
    chapters_json_loop server (fuel + 1) mult =
      (if result_is_error (server (mult * 500)).result then
        some (Except.error (MdError.resultNotOkay (server (mult * 500)).errors))
      else if (server (mult * 500)).data.length = 500 then
        (chapters_json_loop server fuel (mult + 1)).map
          (fun r => r.map (fun pages => (mult * 500, server (mult * 500)) :: pages))
      else some (Except.ok [(mult * 500, server (mult * 500))])) := rfl

theorem chapters_json_loop_honest (feed : List ChapterJson) :
    ∀ fuel mult, mult * 500 ≤ feed.length →
      (feed.length - mult * 500) / 500 < fuel →
      ∃ pages,
        chapters_json_loop (honest_server feed) fuel mult = some (Except.ok pages)
        ∧ pages.flatMap (fun pr => pr.2.data) = feed.drop (mult * 500)
        ∧ pages.length = (feed.length - mult * 500) / 500 + 1
        ∧ pages.map Prod.fst = (List.range' mult pages.length).map (fun k => k * 500) := by
  intro fuel
  induction fuel with
  | zero => intro mult _ h2; omega
  | succ fuel ih =>
    intro mult h1 h2
    have hres : result_is_error (honest_server feed (mult * 500)).result = false := rfl
    by_cases h500 : 500 ≤ feed.length - mult * 500
    · -- the page is full: the loop recurses
      have hlen : (honest_server feed (mult * 500)).data.length = 500 := by
        simp only [honest_server, List.length_take, List.length_drop]
        omega
      have h1' : (mult + 1) * 500 ≤ feed.length := by omega
      have hdiv : (feed.length - mult * 500) / 500
          = (feed.length - (mult + 1) * 500) / 500 + 1 := by
        have e : feed.length - mult * 500 = (feed.length - (mult + 1) * 500) + 500 := by
          omega
        rw [e, Nat.add_div_right _ (by norm_num)]
      have h2' : (feed.length - (mult + 1) * 500) / 500 < fuel := by omega
      obtain ⟨pages', hp1, hp2, hp3, hp4⟩ := ih (mult + 1) h1' h2'
      refine ⟨(mult * 500, honest_server feed (mult * 500)) :: pages', ?_, ?_, ?_, ?_⟩
      · rw [chapters_json_loop_succ, hres]
        simp only [Bool.false_eq_true, if_false, if_pos hlen, hp1]
        rfl
      · rw [List.flatMap_cons, hp2]
        have e2 : (mult + 1) * 500 = mult * 500 + 500 := by ring
        rw [e2, ← List.drop_drop]
        exact List.take_append_drop 500 _
      · simp only [List.length_cons, hp3]
        omega
      · simp only [List.map_cons, List.length_cons, List.range'_succ, hp4]
    · -- the page is short: the loop stops here
      have hlen : ¬(honest_server feed (mult * 500)).data.length = 500 := by
        simp only [honest_server, List.length_take, List.length_drop]
        omega
      refine ⟨[(mult * 500, honest_server feed (mult * 500))], ?_, ?_, ?_, ?_⟩
      · rw [chapters_json_loop_succ, hres]
        simp only [Bool.false_eq_true, if_false, if_neg hlen]
      · show (honest_server feed (mult * 500)).data ++ [] = feed.drop (mult * 500)
        rw [List.append_nil]
        show ((feed.drop (mult * 500)).take 500) = feed.drop (mult * 500)
        exact List.take_of_length_le (by simp; omega)
      · have : (feed.length - mult * 500) / 500 = 0 := Nat.div_eq_of_lt (by omega)
        simp [this]
      · simp [List.range'_one]

/-- Claim C1: listing the chapter feed of an entity with N items
against a faithful page server issues requests at offsets
0, 500, 1000, … (offset = page index × 500), stops at the first page
with fewer than 500 items, makes exactly ceil((N+1)/500) requests
(one page pair per request), and the concatenation of the returned
pages is exactly the N-item feed in feed order.  In particular a
0-item feed needs 1 request, and a 500-item feed needs 2. -/
theorem C1_pagination (feed : List ChapterJson) (fuel : Nat)
    (hfuel : feed.length / 500 < fuel) :
    ∃ pages,
      MangaChapters.chapters_json (honest_server feed) fuel = some (Except.ok pages)
      ∧ pages.length = (feed.length + 1 + 499) / 500
      ∧ pages.map Prod.fst = (List.range' 0 pages.length).map (fun k => k * 500)
      ∧ pages.flatMap (fun pr => pr.2.data) = feed := by
  obtain ⟨pages, h1, hflat, hlen, hoff⟩ :=
    chapters_json_loop_honest feed fuel 0 (by omega) (by simpa using hfuel)
  have hceil : (feed.length + 1 + 499) / 500 = feed.length / 500 + 1 := by
    have e : feed.length + 1 + 499 = feed.length + 500 := by omega
    rw [e, Nat.add_div_right _ (by norm_num)]
  refine ⟨pages, h1, ?_, hoff, ?_⟩
  · rw [hceil]
    simpa using hlen
  · simpa using hflat

/-- Witness for C1 at concrete inputs: the empty feed is exhausted
after exactly 1 request at offset 0, and a 500-item feed needs
exactly 2 requests, at offsets 0 and 500. -/
theorem C1_pagination_witness :
    (∃ pages,
      MangaChapters.chapters_json (honest_server ([] : List ChapterJson)) 1
        = some (Except.ok pages)
      ∧ pages.length = 1
      ∧ pages.map Prod.fst = (List.range' 0 pages.length).map (fun k => k * 500)
      ∧ pages.flatMap (fun pr => pr.2.data) = [])
    ∧ (∃ pages,
      MangaChapters.chapters_json (honest_server (List.replicate 500 ex_feed_item)) 2
        = some (Except.ok pages)
      ∧ pages.length = 2
      ∧ pages.map Prod.fst = [0, 500]) := by
  constructor
  · obtain ⟨pages, h1, h2, h3, h4⟩ := C1_pagination [] 1 (by norm_num)
    exact ⟨pages, h1, by simpa using h2, h3, h4⟩
  · have hrep : (List.replicate 500 ex_feed_item).length = 500 :=
      List.length_replicate 500 ex_feed_item
    obtain ⟨pages, h1, h2, h3, h4⟩ :=
      C1_pagination (List.replicate 500 ex_feed_item) 2 (by rw [hrep]; norm_num)
    have h2' : pages.length = 2 := by rw [h2, hrep]
    refine ⟨pages, h1, h2', ?_⟩
    rw [h3, h2']
    rfl

/-- Claim C9: whenever the chapter-listing operation
`MangaChapters.all` returns a pair, its first component (the reported
total) equals the length of its second component (the list of chapter
records). -/
theorem C9_count_matches_list (server : Nat → FeedJson) (fuel n : Nat)
    (chapters : List Chapter)
    (h : MangaChapters.all server fuel = some (Except.ok (n, chapters))) :
    n = chapters.length := by
  unfold MangaChapters.all at h
  cases hc : MangaChapters.chapters_json server fuel with
  | none => rw [hc] at h; simp at h
  | some r =>
    rw [hc] at h
    cases r with
    | error e => simp [Except.map] at h
    | ok pages =>
      simp only [Option.map_some', Except.map, Option.some.injEq, Except.ok.injEq,
        Prod.mk.injEq] at h
      obtain ⟨h1, h2⟩ := h
      rw [← h1, ← h2]

/-- Witness for C9 at a concrete input: a 1-item feed lists as the
pair (1, one record). -/
theorem C9_count_matches_list_witness :
    (1 : Nat) = [chapter_of_json ex_feed_item].length :=
  C9_count_matches_list (honest_server [ex_feed_item]) 1 1 [chapter_of_json ex_feed_item] rfl

/-- Claim C5: every response body whose `result` field equals
"error" makes the search (`search_by_id`), the chapter-feed loop and
the download resolve step raise `ResultNotOkayError` carrying the
body's reported errors — whose rendered message shows the first
error's status, title and detail — and the error value propagates
unmodified (no retry, no recovery); bodies without such a `result`
field do not raise it. -/
theorem C5_result_not_okay (mj : MangaJson) (lang : String)
    (server : Nat → FeedJson) (fuel : Nat)
    (fetch : String → Option String) (manga_title : String) (chapter : Chapter)
    (datasaver : Bool) (path : Option String) (ah : AtHomeJson) (path_exists : Bool)
    (e : ErrorJson) (rest : List ErrorJson) :
    (mj.result = some "error" →
      MangaSearch.search_by_id mj lang = Except.error (MdError.resultNotOkay mj.errors))
    ∧ (mj.result ≠ some "error" →
      MangaSearch.search_by_id mj lang = Except.ok (manga_from_json mj.data lang))
    ∧ ((server 0).result = some "error" →
      MangaChapters.chapters_json server (fuel + 1)
        = some (Except.error (MdError.resultNotOkay (server 0).errors)))
    ∧ (ah.result = some "error" →
      MangaChapters._download fetch manga_title chapter datasaver path ah path_exists
        = Except.error (MdError.resultNotOkay ah.errors))
    ∧ (ah.result ≠ some "error" →
      ∃ r, MangaChapters._download fetch manga_title chapter datasaver path ah path_exists
        = Except.ok r)
    ∧ ResultNotOkayError.message (e :: rest)
        = some ("Result not okay: <status " ++ e.status ++ "> "
            ++ e.title ++ ": " ++ e.detail) := by
  refine ⟨?_, ?_, ?_, ?_, ?_, rfl⟩
  · intro h
    have hg : result_is_error mj.result = true := by
      simp [result_is_error, h]
    unfold MangaSearch.search_by_id
    rw [hg, if_pos rfl]
  · intro h
    have hg : result_is_error mj.result = false := beq_eq_false_iff_ne.mpr h
    unfold MangaSearch.search_by_id
    rw [hg]
    simp
  · intro h
    have hg : result_is_error (server (0 * 500)).result = true := by
      simp only [Nat.zero_mul]
      simp [result_is_error, h]
    unfold MangaChapters.chapters_json
    rw [chapters_json_loop_succ, hg, if_pos rfl]
  · intro h
    have hg : result_is_error ah.result = true := by
      simp [result_is_error, h]
    unfold MangaChapters._download
    rw [hg, if_pos rfl]
  · intro h
    have hg : result_is_error ah.result = false := beq_eq_false_iff_ne.mpr h
    unfold MangaChapters._download
    rw [hg]
    simp
/-- Witness for C5 at concrete inputs: an error body raises through
the search, feed and resolve operations with the reported errors
attached; a non-error body does not; the rendered message carries the
first error's fields. -/
theorem C5_result_not_okay_witness :
    MangaSearch.search_by_id ex_manga_json_error "en"
      = Except.error (MdError.resultNotOkay [ex_error])
    ∧ MangaSearch.search_by_id ex_manga_json_ok "en"
      = Except.ok (manga_from_json ex_manga_json "en")
    ∧ MangaChapters.chapters_json ex_error_server 1
      = some (Except.error (MdError.resultNotOkay [ex_error]))
    ∧ MangaChapters._download (fun _ => none) "m" (ex_ch "a" "1") false none
        ex_at_home_error false
      = Except.error (MdError.resultNotOkay [ex_error])
    ∧ (∃ r, MangaChapters._download (fun _ => none) "m" (ex_ch "a" "1") false none
        ex_at_home false = Except.ok r)
    ∧ ResultNotOkayError.message [ex_error]
      = some "Result not okay: <status 404> not_found: Manga could not be found" := by
  refine ⟨?_, ?_, ?_, ?_, ?_, ?_⟩
  · exact (C5_result_not_okay ex_manga_json_error "en" ex_error_server 0 (fun _ => none)
      "m" (ex_ch "a" "1") false none ex_at_home_error false ex_error []).1 rfl
  · exact (C5_result_not_okay ex_manga_json_ok "en" ex_error_server 0 (fun _ => none)
      "m" (ex_ch "a" "1") false none ex_at_home_error false ex_error []).2.1 (by decide)
  · exact (C5_result_not_okay ex_manga_json_ok "en" ex_error_server 0 (fun _ => none)
      "m" (ex_ch "a" "1") false none ex_at_home_error false ex_error []).2.2.1 rfl
  · exact (C5_result_not_okay ex_manga_json_ok "en" ex_error_server 0 (fun _ => none)
      "m" (ex_ch "a" "1") false none ex_at_home_error false ex_error []).2.2.2.1 rfl
  · exact (C5_result_not_okay ex_manga_json_ok "en" ex_error_server 0 (fun _ => none)
      "m" (ex_ch "a" "1") false none ex_at_home false ex_error []).2.2.2.2.1 (by decide)
  · exact (C5_result_not_okay ex_manga_json_ok "en" ex_error_server 0 (fun _ => none)
      "m" (ex_ch "a" "1") false none ex_at_home false ex_error []).2.2.2.2.2

theorem download_chapter_by_number_cons (c : Chapter) (rest : List Chapter)
    (number : String) :
    download_chapter_by_number (c :: rest) number =
      if c.number = number then ([c], true)
      else download_chapter_by_number rest number := rfl

/-- Claim C6: `download_chapter_by_number` downloads a chapter only
when its chapter-number label is string-equal to the requested
number; when some chapter's label matches, a download happens (found
is reported); when none matches, nothing is downloaded and not-found
is reported.  The equality is exact string equality, so "10" matches
neither "10.0" nor "10.1". -/
theorem C6_download_by_number (chapters : List Chapter) (number : String) :
    (∀ c ∈ (download_chapter_by_number chapters number).1, c.number = number)
    ∧ ((∃ c ∈ chapters, c.number = number) →
        (download_chapter_by_number chapters number).2 = true
        ∧ (download_chapter_by_number chapters number).1 ≠ [])
    ∧ ((∀ c ∈ chapters, c.number ≠ number) →
        download_chapter_by_number chapters number = ([], false)) := by
  induction chapters with
  | nil =>
    refine ⟨?_, ?_, fun _ => rfl⟩
    · intro c hc
      simp [download_chapter_by_number] at hc
    · rintro ⟨c, hc, _⟩
      simp at hc
  | cons a rest ih =>
    by_cases ha : a.number = number
    · rw [download_chapter_by_number_cons, if_pos ha]
      refine ⟨?_, fun _ => ⟨rfl, by simp⟩, ?_⟩
      · intro c hc
        rw [List.mem_singleton.mp hc]
        exact ha
      · intro hall
        exact absurd ha (hall a (List.mem_cons_self a rest))
    · rw [download_chapter_by_number_cons, if_neg ha]
      refine ⟨ih.1, ?_, ?_⟩
      · rintro ⟨c, hc, hnum⟩
        rcases List.mem_cons.mp hc with hca | hcr
        · exact absurd (hca ▸ hnum) ha
        · exact ih.2.1 ⟨c, hcr, hnum⟩
      · intro hall
        exact ih.2.2 (fun c hc => hall c (List.mem_cons_of_mem a hc))

/-- Witness for C6 at the spec's scenario: on a directory with
chapters numbered "9", "10", "10.1", requesting "10" downloads only
the chapter labelled exactly "10"; requesting "8" downloads nothing
and reports not-found. -/
theorem C6_download_by_number_witness :
    (∀ c ∈ (download_chapter_by_number
        [ex_ch "a" "9", ex_ch "b" "10", ex_ch "c" "10.1"] "10").1, c.number = "10")
    ∧ (download_chapter_by_number
        [ex_ch "a" "9", ex_ch "b" "10", ex_ch "c" "10.1"] "10").2 = true
    ∧ download_chapter_by_number
        [ex_ch "a" "9", ex_ch "b" "10", ex_ch "c" "10.1"] "8" = ([], false) := by
  refine ⟨(C6_download_by_number _ "10").1, ?_, ?_⟩
  · exact ((C6_download_by_number [ex_ch "a" "9", ex_ch "b" "10", ex_ch "c" "10.1"] "10").2.1
      ⟨ex_ch "b" "10", by simp, rfl⟩).1
  · exact (C6_download_by_number [ex_ch "a" "9", ex_ch "b" "10", ex_ch "c" "10.1"] "8").2.2
      (by decide)

/-- Claim C10: when several chapters in the directory share the
requested chapter-number label, `download_chapter_by_number`
downloads exactly one — the first matching chapter in feed order —
and stops, downloading no later chapter with the same label. -/
theorem C10_first_match_only (pre : List Chapter) (c : Chapter) (post : List Chapter)
    (number : String) (hc : c.number = number)
    (hpre : ∀ c' ∈ pre, c'.number ≠ number) :
    download_chapter_by_number (pre ++ c :: post) number = ([c], true) := by
  induction pre with
  | nil =>
    rw [List.nil_append, download_chapter_by_number_cons, if_pos hc]
  | cons p rest ih =>
    rw [List.cons_append, download_chapter_by_number_cons,
      if_neg (hpre p (List.mem_cons_self p rest))]
    exact ih (fun c' h => hpre c' (List.mem_cons_of_mem p h))

/-- Witness for C10 at a concrete input: two chapters both labelled
"10"; only the first is downloaded. -/
theorem C10_first_match_only_witness :
    download_chapter_by_number [ex_ch "a" "10", ex_ch "b" "10"] "10"
      = ([ex_ch "a" "10"], true) :=
  C10_first_match_only [] (ex_ch "a" "10") [ex_ch "b" "10"] "10" rfl (by simp)

theorem download_pages_success (f : String → String) (extOf : String → String)
    (baseUrl quality hash path : String) :
    ∀ (pages : List String) (index : Nat),
      (∀ s ∈ pages, ext_type s = some (extOf s)) →
      download_pages (fun u => some (f u)) baseUrl quality hash path index pages
        = ((pages.enumFrom index).flatMap (fun ip =>
            [FsEvent.createFile (page_file path ip.1 (extOf ip.2)),
             FsEvent.writeFile (page_file path ip.1 (extOf ip.2))
               (f (page_full_url baseUrl quality hash ip.2))]),
           pages.map (fun s => page_full_url baseUrl quality hash s), true) := by
  intro pages
  induction pages with
  | nil => intro index _; rfl
  | cons p rest ih =>
    intro index hext
    have hp : ext_type p = some (extOf p) := hext p (List.mem_cons_self p rest)
    have hrec := ih (index + 1) (fun s hs => hext s (List.mem_cons_of_mem p hs))
    simp only [download_pages, hp, hrec]
    rfl

/-- Claim C7: for a chapter download with a fixed quality flag and an
always-successful CDN fetch, `_download` creates the chapter
directory — `{path}/{number}: {title}` when the chapter has a title,
else `{path}/{number}` — before any page write (here:
`os.path.exists` is false), and, for the page at 0-based index i of
the chosen page-path sequence, fetches the URL
`{quality-segment}/{content-hash}/{page-path}` resolved against the
session base URL and writes its bytes to `{dir}/{i+1}.{ext}`, the
extension being the page path's last non-empty dot-separated
segment. -/
theorem C7_download_layout (f : String → String) (extOf : String → String)
    (manga_title : String) (chapter : Chapter) (datasaver : Bool) (p : String)
    (at_home : AtHomeJson) (hp : p ≠ "") (hok : at_home.result ≠ some "error")
    (hext : ∀ s ∈ chosen_pages at_home datasaver, ext_type s = some (extOf s)) :
    MangaChapters._download (fun u => some (f u)) manga_title chapter datasaver (some p)
        at_home false
      = Except.ok
          (FsEvent.mkdirTree (p ++ "/" ++ chapter_dir_name chapter)
            :: ((chosen_pages at_home datasaver).enumFrom 0).flatMap (fun ip =>
              [FsEvent.createFile
                  (page_file (p ++ "/" ++ chapter_dir_name chapter) ip.1 (extOf ip.2)),
               FsEvent.writeFile
                  (page_file (p ++ "/" ++ chapter_dir_name chapter) ip.1 (extOf ip.2))
                  (f (page_full_url at_home.baseUrl (chosen_quality datasaver)
                      at_home.chapter.hash ip.2))]),
           (chosen_pages at_home datasaver).map (fun s =>
              page_full_url at_home.baseUrl (chosen_quality datasaver)
                at_home.chapter.hash s),
           true) := by
  have hg : result_is_error at_home.result = false := beq_eq_false_iff_ne.mpr hok
  have hcall := download_pages_success f extOf at_home.baseUrl
      (chosen_quality datasaver) at_home.chapter.hash
      (p ++ "/" ++ chapter_dir_name chapter) (chosen_pages at_home datasaver) 0 hext
  simp only [MangaChapters._download, hg, Bool.false_eq_true, if_false, if_neg hp]
  rw [show (if datasaver = true then at_home.chapter.dataSaver else at_home.chapter.data)
      = chosen_pages at_home datasaver from rfl,
    show (if datasaver = true then "data-saver" else "data")
      = chosen_quality datasaver from rfl,
    show (p ++ "/" ++ match chapter.title with
        | some t => chapter.number ++ ": " ++ t
        | none => chapter.number)
      = p ++ "/" ++ chapter_dir_name chapter from rfl,
    hcall]
  rfl

/-- Witness for C7 at concrete inputs: a two-page chapter titled
"The Title", number "10", base path "out", full quality. -/
theorem C7_download_layout_witness :
    MangaChapters._download (fun u => some ("IMG:" ++ u)) "MyManga" ex_chapter false
        (some "out") ex_at_home false
      = Except.ok
          ([FsEvent.mkdirTree "out/10: The Title",
            FsEvent.createFile "out/10: The Title/1.png",
            FsEvent.writeFile "out/10: The Title/1.png"
              "IMG:https://cdn.example/data/hash123/p1.png",
            FsEvent.createFile "out/10: The Title/2.jpg",
            FsEvent.writeFile "out/10: The Title/2.jpg"
              "IMG:https://cdn.example/data/hash123/p2.jpg"],
           ["https://cdn.example/data/hash123/p1.png",
            "https://cdn.example/data/hash123/p2.jpg"],
           true) :=
  (C7_download_layout (fun u => "IMG:" ++ u) ex_ext "MyManga" ex_chapter false "out"
      ex_at_home (by decide) (by decide) (by decide)).trans rfl

/-- Counterexample to claim C8 as stated: with a CDN fetch that fails
on the second page, `_download` still records the creation
(truncation) of that page's file `out/10: The Title/2.jpg`, because
the `open(..., "wb")` is evaluated before the fetch — so a page whose
fetch fails does not leave the filesystem unchanged for that page. -/
theorem C8_fs_effects_counterexample :
    MangaChapters._download ex_fetch_fail2 "MyManga" ex_chapter false (some "out")
        ex_at_home false
      = Except.ok
          ([FsEvent.mkdirTree "out/10: The Title",
            FsEvent.createFile "out/10: The Title/1.png",
            FsEvent.writeFile "out/10: The Title/1.png"
              "IMG:https://cdn.example/data/hash123/p1.png",
            FsEvent.createFile "out/10: The Title/2.jpg"],
           ["https://cdn.example/data/hash123/p1.png",
            "https://cdn.example/data/hash123/p2.jpg"],
           false)
    ∧ ex_fetch_fail2 "https://cdn.example/data/hash123/p2.jpg" = none :=
  ⟨rfl, rfl⟩

/-- Claim C8 (amended): in the page-download loop every processed
page is fetched exactly once — the request list carries one URL per
page up to and including the first failure, so no retry happens at
this layer (Transport's internal single rate-limit retry is the only
resilience) — and page bytes are written only for pages whose fetch
succeeds; however the failing page's target file has already been
created (truncated) by the `open(..., "wb")` evaluated before its
fetch, so a failed fetch leaves that page's file created empty rather
than untouched, and the loop aborts without touching any later
page. -/
theorem C8_page_fetch_effects (fetch : String → Option String)
    (g : String → String) (extOf : String → String)
    (baseUrl quality hash path page_url : String) (post : List String) :
    ∀ (pre : List String) (index : Nat),
      (∀ s ∈ pre ++ page_url :: post, ext_type s = some (extOf s)) →
      (∀ s ∈ pre, fetch (page_full_url baseUrl quality hash s)
        = some (g (page_full_url baseUrl quality hash s))) →
      fetch (page_full_url baseUrl quality hash page_url) = none →
      download_pages fetch baseUrl quality hash path index (pre ++ page_url :: post)
        = ((pre.enumFrom index).flatMap (fun ip =>
            [FsEvent.createFile (page_file path ip.1 (extOf ip.2)),
             FsEvent.writeFile (page_file path ip.1 (extOf ip.2))
               (g (page_full_url baseUrl quality hash ip.2))])
            ++ [FsEvent.createFile (page_file path (index + pre.length) (extOf page_url))],
           (pre ++ [page_url]).map (fun s => page_full_url baseUrl quality hash s),
           false) := by
  intro pre
  induction pre with
  | nil =>
    intro index hext _ hfail
    have hp : ext_type page_url = some (extOf page_url) := hext page_url (by simp)
    have hfail' : fetch (baseUrl ++ "/" ++ (quality ++ "/" ++ hash ++ "/" ++ page_url))
        = none := hfail
    simp only [List.nil_append, download_pages, hp, hfail']
    rfl
  | cons q rest ih =>
    intro index hext hpre hfail
    have hq : ext_type q = some (extOf q) := hext q (by simp)
    have hqf : fetch (baseUrl ++ "/" ++ (quality ++ "/" ++ hash ++ "/" ++ q))
        = some (g (page_full_url baseUrl quality hash q)) :=
      hpre q (List.mem_cons_self q rest)
    simp only [List.cons_append, download_pages, hq, hqf, List.append_eq]
    rw [ih (index + 1) (fun s hs => hext s (List.mem_cons_of_mem q hs))
      (fun s hs => hpre s (List.mem_cons_of_mem q hs)) hfail]
    simp only [List.length_cons]
    rw [show index + (rest.length + 1) = index + 1 + rest.length by omega]
    rfl

/-- Witness for C8 (amended) at concrete inputs: the first page
succeeds and is created then written; the second page's fetch fails
after its file is created; both pages are fetched exactly once and
the loop reports failure. -/
theorem C8_page_fetch_effects_witness :
    download_pages ex_fetch_fail2 "https://cdn.example" "data" "hash123"
        "out/10: The Title" 0 ["p1.png", "p2.jpg"]
      = ([FsEvent.createFile "out/10: The Title/1.png",
          FsEvent.writeFile "out/10: The Title/1.png"
            "IMG:https://cdn.example/data/hash123/p1.png",
          FsEvent.createFile "out/10: The Title/2.jpg"],
         ["https://cdn.example/data/hash123/p1.png",
          "https://cdn.example/data/hash123/p2.jpg"],
         false) :=
  (C8_page_fetch_effects ex_fetch_fail2 (fun u => "IMG:" ++ u) ex_ext
      "https://cdn.example" "data" "hash123" "out/10: The Title" "p2.jpg" []
      ["p1.png"] 0 (by decide) (by decide) (by decide)).trans rfl
